import Mathlib

/-
Verification development for the colabutils repository (package bootstrap plus
the datafetch subsystem: src/datafetch/core.py and src/datafetch/pipes.py).
Python functions are shallowly embedded as Lean functions; Python exceptions
become an explicit error type carried in Except; process-wide mutable state
(the connector registry, the BigQuery service, the local SQLite file) becomes
explicit state passing.  Object identity, which Python gives every constructed
object, is modelled by a heap counter: each constructor call allocates the
next natural number as the new object identity.
-/

namespace Colabutils

/-- Python exception kinds that the datafetch code can raise.  InvalidInputsError
is the custom class defined in the package root; the others are Python builtins. -/
inductive PyErr where
  | invalidInputsError (msg : String)
  | runtimeError (msg : String)
  | typeError (msg : String)
  | nameError (name : String)
  | indexError (msg : String)
  | valueError (msg : String)
  | notFoundError (msg : String)
  deriving Repr, DecidableEq

/-- Single-quote character, used when embedding the SQL text the code generates. -/
def sq : String := "\x27"

/- ------------------------------------------------------------------
Connector registry (class Connectors, core.py lines 24-39).
The dataclass starts with only `persistent = True`; each connector slot is an
attribute that exists only after a pipeline first stores a connector there.
`none` models the attribute being absent (reading it raises AttributeError,
which every pipeline catches with a bare except and answers by constructing
a fresh connector).  Slots hold object identities (heap ids).
------------------------------------------------------------------ -/

structure Connectors where
  persistent : Bool
  google_drive_connector : Option Nat
  sqlserver_connector : Option Nat
  sqlite_connector : Option Nat
  gcp_connector : Option Nat
  next_obj_id : Nat
  deriving Repr, DecidableEq

/-- Constructing any connector object allocates a fresh identity from the heap. -/
def Connectors.alloc (c : Connectors) : Connectors × Nat :=
  ({ c with next_obj_id := c.next_obj_id + 1 }, c.next_obj_id)

/- ------------------------------------------------------------------
manipulate_sqlite_db (pipes.py lines 855-901).
Connector resolution: try reading Connectors.sqlite_connector; if the
attribute is absent (bare except) construct SQLiteConnection(file_path,
pre_created_engine); if present and persistent, reuse it; if present and not
persistent, construct a fresh one.  The slot is written back only inside the
action branches, after the connector method returned.
------------------------------------------------------------------ -/

/-- Connector resolution step of manipulate_sqlite_db (the try/except block). -/
def sqlite_resolve (c : Connectors) : Connectors × Nat :=
  match c.sqlite_connector with
  | some conn => if c.persistent then (c, conn) else c.alloc
  | none => c.alloc

/-- Error message raised by SQLiteConnection.fetch_table on any read failure. -/
def sqliteFetchMsg : String :=
  "Error trying to fetch SQLite Database. If an pre-created engine was provided, check if it is correct and working.\n"

/-- Error message raised by SQLiteConnection.update_or_create_table on any failure. -/
def sqliteUpdateMsg : String :=
  "Error trying to update SQLite Database. If an pre-created engine was provided, check if it is correct and working.\n"

/-- World state seen by manipulate_sqlite_db: the registry plus the set of table
names readable from the SQLite database file (pd.read_sql succeeds exactly on
those; any other read raises, which fetch_table converts to InvalidInputsError). -/
structure SqliteWorld where
  conn : Connectors
  tables : List String
  deriving Repr, DecidableEq

/-- Pipeline manipulate_sqlite_db.  Returns the new world, the identity of the
connector object the call used, and the outcome.  The fetch_table branch
stores the connector in the registry slot after a successful fetch; the
update_table branch always raises, because SQLiteConnection.update_or_create_table
always raises InvalidInputsError (its body references the unbound names df and
engine, see the SQLiteConnection embedding below); any other action value falls
through both branches and returns None without touching the slot. -/
def manipulate_sqlite_db (w : SqliteWorld) (action table_name : String) :
    SqliteWorld × Nat × Except PyErr Unit :=
  let rc := sqlite_resolve w.conn
  if action = "fetch_table" then
    if w.tables.contains table_name then
      (⟨{ rc.1 with sqlite_connector := some rc.2 }, w.tables⟩, rc.2, Except.ok ())
    else
      (⟨rc.1, w.tables⟩, rc.2, Except.error (PyErr.invalidInputsError sqliteFetchMsg))
  else if action = "update_table" then
    (⟨rc.1, w.tables⟩, rc.2, Except.error (PyErr.invalidInputsError sqliteUpdateMsg))
  else
    (⟨rc.1, w.tables⟩, rc.2, Except.ok ())

/- ------------------------------------------------------------------
mount_storage_system (pipes.py lines 75-95).
The google branch only gets-or-creates a MountGoogleDrive connector: it never
invokes mount_drive.  The aws branch constructs
InvalidInputsError(...) as an expression statement without raising it.  Any
other source raises InvalidInputsError naming the two valid choices.
------------------------------------------------------------------ -/

/-- Message of the exception object the aws branch constructs and discards. -/
def awsS3Msg : String := "colab-utils is a simplified version of idsw that cannot access S3."

/-- Message of the exception raised for an unrecognized source. -/
def selectSourceMsg : String :=
  "Select a valid source: " ++ sq ++ "google" ++ sq ++ " for mounting Google Drive; or " ++
    sq ++ "aws" ++ sq ++ " for accessing AWS S3 Bucket."

/-- Observable outcome of a normal (non-raising) return of mount_storage_system:
the registry afterwards, whether MountGoogleDrive.mount_drive was ever invoked
during the call, and the messages of exception objects that were constructed
but never raised. -/
structure MountOutcome where
  conn : Connectors
  mounted : Bool
  constructed_errors : List String
  deriving Repr, DecidableEq

/-- Pipeline mount_storage_system. -/
def mount_storage_system (source : String) (c : Connectors) : Except PyErr MountOutcome :=
  if source = "google" then
    match c.google_drive_connector with
    | some _ =>
      if c.persistent then Except.ok ⟨c, false, []⟩
      else
        let rc := c.alloc
        Except.ok ⟨{ rc.1 with google_drive_connector := some rc.2 }, false, []⟩
    | none =>
      let rc := c.alloc
      Except.ok ⟨{ rc.1 with google_drive_connector := some rc.2 }, false, []⟩
  else if source = "aws" then
    Except.ok ⟨c, false, [awsS3Msg]⟩
  else
    Except.error (PyErr.invalidInputsError selectSourceMsg)

/- ------------------------------------------------------------------
sqlserver_pipeline (pipes.py lines 1123-1217).
After resolving the connector, the function dispatches on the bare name
`action`.  That name is not a parameter, is never assigned in the body, is not
bound at module level in pipes.py, and is not a Python builtin, so evaluating
it raises NameError before any branch can run.
------------------------------------------------------------------ -/

/-- Names local to sqlserver_pipeline: its thirteen parameters plus the one name
its body assigns (the resolved connector). -/
def sqlserver_pipeline_local_names : List String :=
  ["server", "database", "username", "password", "system", "show_schema", "export_csv",
   "saving_directory_path", "query", "show_table", "table", "tag", "variable_name",
   "sqlserver_connector"]

/-- Names bound at module level in src/datafetch/pipes.py: the module imports and
the function definitions of the module itself. -/
def pipes_module_globals : List String :=
  ["np", "pd", "plt", "sns", "InvalidInputsError", "ControlVars", "Connectors",
   "MountGoogleDrive", "SQLServerConnection", "SQLiteConnection", "GCPBigQueryConnection",
   "mount_storage_system", "upload_to_or_download_file_from_colab", "load_pandas_dataframe",
   "json_obj_to_pandas_dataframe", "convert_variable_or_iterable_to_single_column_df",
   "set_schema_pd_df", "export_pd_dataframe_as_csv", "export_pd_dataframe_as_excel",
   "manipulate_sqlite_db", "bigquery_pipeline", "sqlserver_pipeline"]

/-- Python builtin names the module relies on; `action` is not a Python builtin,
and the list is only consulted for that one lookup. -/
def python_builtin_names : List String :=
  ["print", "input", "len", "list", "type", "str", "int", "float", "open", "range",
   "vars", "zip", "Exception", "RuntimeError", "TypeError", "NameError"]

/-- Connector resolution step of sqlserver_pipeline (same try/except shape as the
SQLite pipeline; SQLServerConnection construction, which opens the ODBC handle,
is modelled as succeeding, so the call reaches the dispatch step). -/
def sqlserver_resolve (c : Connectors) : Connectors × Nat :=
  match c.sqlserver_connector with
  | some conn => if c.persistent then (c, conn) else c.alloc
  | none => c.alloc

/-- Pipeline sqlserver_pipeline.  The middle component of the result lists the
connector methods the dispatcher invoked during the call. -/
def sqlserver_pipeline (c : Connectors) : Connectors × List String × Except PyErr Unit :=
  let rc := sqlserver_resolve c
  -- dispatch step: `if (action == ...)` first evaluates the bare name `action`
  if sqlserver_pipeline_local_names.contains "action" ||
      pipes_module_globals.contains "action" ||
      python_builtin_names.contains "action" then
    -- unreachable: the name `action` is bound nowhere (see the C10 theorem)
    (rc.1, [], Except.ok ())
  else
    (rc.1, [], Except.error (PyErr.nameError "action"))

/- ------------------------------------------------------------------
SQLiteConnection (core.py lines 410-524).
The connection object stores a file path and an optional engine handle; the
engine handle is modelled by the engine URL it was created from.
------------------------------------------------------------------ -/

structure SQLiteConnection where
  file_path : String
  engine : Option String
  deriving Repr, DecidableEq

/-- Error message raised by SQLiteConnection.create_engine on any failure. -/
def createEngineMsg : String :=
  "Error trying to create SQLite Engine Database. Check if no more than one slash was added to file path.\n"

/-- Method SQLiteConnection.create_engine: strips a leading ./ from the stored
path, then strips one leading slash, prefixes the sqlite URL scheme, stores
the URL back into file_path and builds the engine from it.  The whole body sits
in a try block whose bare except re-raises InvalidInputsError; the one failure
the body itself can produce is indexing the first character of an empty path
(Python raises IndexError on that subscript). -/
def SQLiteConnection.create_engine (c : SQLiteConnection) : Except PyErr SQLiteConnection :=
  let p0 := c.file_path
  let p1 := if p0.take 2 = "./" then p0.drop 2 else p0
  if p1.length = 0 then
    Except.error (PyErr.invalidInputsError createEngineMsg)
  else
    let p2 := if p1.take 1 = "/" then p1.drop 1 else p1
    let url := "sqlite:///" ++ p2
    Except.ok { file_path := url, engine := some url }

/-- Names local to SQLiteConnection.update_or_create_table: its two parameters. -/
def update_or_create_table_local_names : List String := ["self", "table_name"]

/-- Names bound at module level in src/datafetch/core.py: the module imports and
the class definitions of the module itself. -/
def core_module_globals : List String :=
  ["np", "pd", "plt", "sns", "openpyxl", "dataclass", "InvalidInputsError", "ControlVars",
   "Connectors", "MountGoogleDrive", "SQLServerConnection", "SQLiteConnection",
   "GCPBigQueryConnection", "IngestExcelTables", "SharePointDownloader"]

/-- Method SQLiteConnection.update_or_create_table: lazily builds the engine if
absent, then runs a try block whose first statement is
df.to_sql(table_name, con = engine, if_exists = replace-mode, index = False).
Both df and engine are bare names there: they are not parameters, are never
assigned in the method, and are bound neither at module level in core.py nor
as Python builtins, so evaluating df raises NameError; the bare except catches
it and raises InvalidInputsError instead. -/
def SQLiteConnection.update_or_create_table (c : SQLiteConnection) (_table_name : String) :
    Except PyErr (SQLiteConnection × String) :=
  match (if c.engine.isNone then c.create_engine else Except.ok c) with
  | Except.error e => Except.error e
  | Except.ok c1 =>
    if update_or_create_table_local_names.contains "df" ||
        core_module_globals.contains "df" ||
        python_builtin_names.contains "df" then
      -- unreachable: df is unbound, so the write is never performed (C5 theorem)
      Except.ok (c1, "written")
    else
      Except.error (PyErr.invalidInputsError sqliteUpdateMsg)

/- ------------------------------------------------------------------
GCPBigQueryConnection (core.py lines 527-1429).
State of the warehouse as the connector observes and mutates it: the project
and dataset identifiers of the connector, the tables that client.get_table can
fetch (with their streaming-buffer status), the log of every query text handed
to client.query, and the view ids for which the create-table API was invoked.
------------------------------------------------------------------ -/

structure BQTable where
  hasStreamingBuffer : Bool
  deriving Repr, DecidableEq

structure BQState where
  project : String
  dataset : String
  tables : List (String × BQTable)
  executedQueries : List String
  createdViews : List String
  deriving Repr, DecidableEq

/-- Method GCPBigQueryConnection.table_exists (one parameter besides self):
client.get_table succeeds exactly on the registered tables, and the bare
except turns every failure into False. -/
def GCPBigQueryConnection.table_exists (s : BQState) (table_id : String) : Bool :=
  (s.tables.lookup table_id).isSome

/-- Positional arguments a Python call site can pass to table_exists. -/
inductive PyArg where
  | client
  | strArg (s : String)
  deriving Repr, DecidableEq

/-- Number of positional parameters of table_exists besides self. -/
def table_exists_param_count : Nat := 1

/-- Message of the TypeError Python raises when table_exists is called with two
positional arguments besides self. -/
def tableExistsArityMsg : String :=
  "table_exists() takes 2 positional arguments but 3 were given"

/-- Dynamic call of the bound method self.table_exists with a list of positional
arguments, checking the arity the way the Python runtime does before the body
can run. -/
def call_table_exists (s : BQState) (args : List PyArg) : Except PyErr Bool :=
  if args.length = table_exists_param_count then
    match args with
    | [PyArg.strArg tid] => Except.ok (GCPBigQueryConnection.table_exists s tid)
    | _ => Except.ok false
  else
    Except.error (PyErr.typeError tableExistsArityMsg)

/-- Method GCPBigQueryConnection.create_new_view (core.py lines 1363-1429).
The existence probe is written `self.table_exists(bqclient, view_id)`: the
bound method receives two positional arguments although it declares one, so
the call raises TypeError before anything else happens.  Had the probe
answered True, the method would print a message and return self; had it
answered False, it would execute the defining query, build a view object and
invoke the create-table API.  The Bool in the result records whether a view
was created.  The state is returned alongside the outcome because effects
performed before a raise persist in Python. -/
def GCPBigQueryConnection.create_new_view (s : BQState) (view_id query : String) :
    BQState × Except PyErr Bool :=
  match call_table_exists s [PyArg.client, PyArg.strArg view_id] with
  | Except.error e => (s, Except.error e)
  | Except.ok true => (s, Except.ok false)
  | Except.ok false =>
    let s1 := { s with executedQueries := s.executedQueries ++ [query] }
    let s2 := { s1 with createdViews := s1.createdViews ++ [view_id],
                        tables := (view_id, ⟨false⟩) :: s1.tables }
    (s2, Except.ok true)

/-- Message of the RuntimeError every warehouse delete and update operation
raises when the target table holds a streaming buffer. -/
def streamingBufferMsg : String :=
  "Table contains data in a streaming buffer, which cannot be updated or deleted. Please perform this action when the streaming buffer is empty (may take up to 90 minutes from last data insertion)."

/-- Fully qualified backtick-quoted table reference the warehouse queries embed. -/
def fullTableName (s : BQState) (table : String) : String :=
  "`" ++ s.project ++ "." ++ s.dataset ++ "." ++ table ++ "`"

/-- Values a caller can hand to the warehouse delete and update operations:
Python strings are quoted into the SQL text, everything else is interpolated
bare (the code tests type(v) == str). -/
inductive SqlVal where
  | strVal (v : String)
  | numVal (v : Int)
  deriving Repr, DecidableEq

/-- Whether the Python value is a string (type(v) == str). -/
def SqlVal.isStr : SqlVal → Bool
  | SqlVal.strVal _ => true
  | SqlVal.numVal _ => false

/-- The f-string interpolation of the value itself. -/
def SqlVal.raw : SqlVal → String
  | SqlVal.strVal v => v
  | SqlVal.numVal v => toString v

/-- The value as the delete query renders it: strings single-quoted, numbers bare. -/
def SqlVal.lit : SqlVal → String
  | SqlVal.strVal v => sq ++ v ++ sq
  | SqlVal.numVal v => toString v

/-- Common tail of the five warehouse delete and update operations: fetch the
table metadata via client.get_table, raise RuntimeError if the streaming
buffer is not None, otherwise submit the mutating query to client.query. -/
def bqMutate (s : BQState) (table query : String) : BQState × Except PyErr Unit :=
  match s.tables.lookup table with
  | none => (s, Except.error (PyErr.notFoundError "table not found"))
  | some meta =>
    if meta.hasStreamingBuffer then
      (s, Except.error (PyErr.runtimeError streamingBufferMsg))
    else
      ({ s with executedQueries := s.executedQueries ++ [query] }, Except.ok ())

/-- Shapes the values_to_delete argument can arrive in: a bare string or bare
scalar is wrapped into a one-element list, an iterable is materialized with
list(...). -/
inductive ValuesArg where
  | scalar (v : SqlVal)
  | listArg (vs : List SqlVal)
  deriving Repr, DecidableEq

/-- Normalization of values_to_delete performed at the top of the delete method. -/
def ValuesArg.normalize : ValuesArg → List SqlVal
  | ValuesArg.scalar v => [v]
  | ValuesArg.listArg vs => vs

/-- Method delete_specific_values_from_column_on_table (core.py lines 987-1081):
normalizes the values, pops the first one (IndexError on an empty list),
builds the DELETE text with one OR clause per further value, then runs the
streaming-buffer guard before submitting. -/
def GCPBigQueryConnection.delete_specific_values_from_column_on_table
    (s : BQState) (table column : String) (values_to_delete : ValuesArg) :
    BQState × Except PyErr Unit :=
  match values_to_delete.normalize with
  | [] => (s, Except.error (PyErr.indexError "pop from empty list"))
  | val0 :: rest =>
    let q0 := "DELETE FROM " ++ fullTableName s table ++ " WHERE " ++ column ++ " = " ++
      val0.lit ++ " "
    let delete_query :=
      rest.foldl (fun q v => q ++ "OR " ++ column ++ " = " ++ v.lit ++ " ") q0
    bqMutate s table delete_query

/-- Method update_specific_value_from_column_on_table (core.py lines 1084-1150):
quotes both sides whenever either value is a string, then runs the guard. -/
def GCPBigQueryConnection.update_specific_value_from_column_on_table
    (s : BQState) (table column : String) (old_value updated_value : SqlVal) :
    BQState × Except PyErr Unit :=
  let update_query :=
    if old_value.isStr || updated_value.isStr then
      "UPDATE " ++ fullTableName s table ++ " SET `" ++ column ++ "` = " ++ sq ++
        updated_value.raw ++ sq ++ " WHERE `" ++ column ++ "` = " ++ sq ++ old_value.raw ++ sq
    else
      "UPDATE " ++ fullTableName s table ++ " SET `" ++ column ++ "` = " ++
        updated_value.raw ++ " WHERE `" ++ column ++ "` = " ++ old_value.raw
  bqMutate s table update_query

/-- Method update_entire_column_from_table (core.py lines 1153-1218):
same shape with WHERE TRUE, quoting decided by the updated value alone. -/
def GCPBigQueryConnection.update_entire_column_from_table
    (s : BQState) (table column : String) (updated_value : SqlVal) :
    BQState × Except PyErr Unit :=
  let update_query :=
    if updated_value.isStr then
      "UPDATE " ++ fullTableName s table ++ " SET `" ++ column ++ "` = " ++ sq ++
        updated_value.raw ++ sq ++ " WHERE TRUE"
    else
      "UPDATE " ++ fullTableName s table ++ " SET `" ++ column ++ "` = " ++
        updated_value.raw ++ " WHERE TRUE"
  bqMutate s table update_query

/-- Method update_value_when_finding_str_or_substring_on_another_column
(core.py lines 1221-1289): WHERE CONTAINS_SUBSTR on the string column, the
substring double-quoted, quoting of the SET value decided by its type. -/
def GCPBigQueryConnection.update_value_when_finding_str_or_substring_on_another_column
    (s : BQState) (table column : String) (updated_value : SqlVal)
    (string_column str_or_substring_to_search : String) :
    BQState × Except PyErr Unit :=
  let update_query :=
    if updated_value.isStr then
      "UPDATE " ++ fullTableName s table ++ " SET `" ++ column ++ "` = " ++ sq ++
        updated_value.raw ++ sq ++ " WHERE CONTAINS_SUBSTR(" ++ string_column ++ ", \"" ++
        str_or_substring_to_search ++ "\")"
    else
      "UPDATE " ++ fullTableName s table ++ " SET `" ++ column ++ "` = " ++
        updated_value.raw ++ " WHERE CONTAINS_SUBSTR(" ++ string_column ++ ", \"" ++
        str_or_substring_to_search ++ "\")"
  bqMutate s table update_query

/-- Method update_value_when_finding_numeric_value_on_another_column
(core.py lines 1292-1360): WHERE on the comparative column with the searched
value interpolated bare, quoting of the SET value decided by its type. -/
def GCPBigQueryConnection.update_value_when_finding_numeric_value_on_another_column
    (s : BQState) (table column : String) (updated_value : SqlVal)
    (comparative_column : String) (value_to_search : SqlVal) :
    BQState × Except PyErr Unit :=
  let update_query :=
    if updated_value.isStr then
      "UPDATE " ++ fullTableName s table ++ " SET `" ++ column ++ "` = " ++ sq ++
        updated_value.raw ++ sq ++ " WHERE `" ++ comparative_column ++ "` = " ++
        value_to_search.raw
    else
      "UPDATE " ++ fullTableName s table ++ " SET `" ++ column ++ "` = " ++
        updated_value.raw ++ " WHERE `" ++ comparative_column ++ "` = " ++
        value_to_search.raw
  bqMutate s table update_query

/- ------------------------------------------------------------------
SharePointDownloader (core.py lines 1640-1886).
The Graph responses are modelled as the folder tree they describe: a drive
item is either a downloadable file (it carries the download URL field and a
name and id) or a folder with children.  find_file walks the children of the
current folder in order, returning the first file whose name matches, and
recursing depth-first into every folder item.
------------------------------------------------------------------ -/

inductive SPItem where
  | file (name id : String)
  | folder (id : String) (children : List SPItem)

/-- Method SharePointDownloader.find_file on the children of the current folder. -/
def find_file (target_file_name : String) : List SPItem → Option String
  | [] => none
  | SPItem.file name fid :: rest =>
    if name = target_file_name then some fid else find_file target_file_name rest
  | SPItem.folder _ children :: rest =>
    match find_file target_file_name children with
    | some fid => some fid
    | none => find_file target_file_name rest

/-- Observable outcome of a normal return of download_file: either the file was
retrieved to local disk under its original name and the success line printed,
or the except handler printed the text of a caught exception and the method
returned None. -/
inductive DownloadResult where
  | downloadedOk (fname : String)
  | errorPrinted (e : PyErr)
  deriving Repr, DecidableEq

/-- Body of the try block of SharePointDownloader.download_file, with token
acquisition and drive/folder resolution succeeding (folder_match given and
present, so the search starts from the resolved folder whose tree is the
argument): search for the file; on a hit fetch its metadata, retrieve it under
its original name (the name that matched) and print the success line; on a
miss raise InvalidInputsError. -/
def download_file_try_body (tree : List SPItem) (target_file_name : String) :
    Except PyErr String :=
  match find_file target_file_name tree with
  | some _fid => Except.ok target_file_name
  | none => Except.error (PyErr.invalidInputsError "File not found.")

/-- Method SharePointDownloader.download_file as its caller observes it: the
whole body sits in a try block whose handler is except Exception as e and
prints the error text, so every exception the body raises, the not-found
InvalidInputsError included, is caught here and the method returns normally. -/
def download_file (tree : List SPItem) (target_file_name : String) :
    Except PyErr DownloadResult :=
  match download_file_try_body tree target_file_name with
  | Except.ok fname => Except.ok (DownloadResult.downloadedOk fname)
  | Except.error e => Except.ok (DownloadResult.errorPrinted e)

/- ------------------------------------------------------------------
set_schema_pd_df (pipes.py lines 652-721).
The dataframe is column-oriented: an ordered association list from column
name to column payload (values plus dtype, opaque here).  The numpy coercion
np.array(column, dtype = column_type) is external library behaviour and is
passed in as a function that can fail.
------------------------------------------------------------------ -/

/-- One element of schema_list.  A value of None for either key, and equally a
dictionary missing the key (the outer bare except catches the KeyError), leads
to the same skip, so both are modelled as none. -/
structure SchemaEntry where
  column_name : Option String
  column_type : Option String
  deriving Repr, DecidableEq

/-- Reading dataset[column_name]: association-list lookup; a missing column
raises KeyError, modelled by none. -/
def lookupCol {α : Type} (df : List (String × α)) (n : String) : Option α :=
  df.lookup n

/-- Assignment dataset[column_name] = arr on an existing column: replace the
payload in place, keeping the column order. -/
def setCol {α : Type} (df : List (String × α)) (n : String) (v : α) : List (String × α) :=
  df.map (fun p => if p.1 = n then (n, v) else p)

/-- One iteration of the loop of set_schema_pd_df over schema_list: unpack the
two keys (an incomplete pair fails the non-None test and is skipped), read the
column (KeyError is swallowed by the inner bare except), coerce it (a numpy
failure is swallowed the same way), and write the coerced column back. -/
def set_schema_step {α : Type} (cast : String → α → Option α)
    (dataset : List (String × α)) (entry : SchemaEntry) : List (String × α) :=
  match entry.column_name, entry.column_type with
  | some cn, some ct =>
    match lookupCol dataset cn with
    | none => dataset
    | some col =>
      match cast ct col with
      | none => dataset
      | some col2 => setCol dataset cn col2
  | _, _ => dataset

/-- Function set_schema_pd_df: works on a deep copy of the input (a pure value
here, so the caller keeps the original untouched by construction) and folds
the loop over schema_list; afterwards it only prints the head rows and the
dtype map. -/
def set_schema_pd_df {α : Type} (cast : String → α → Option α)
    (df : List (String × α)) (schema_list : List SchemaEntry) : List (String × α) :=
  schema_list.foldl (set_schema_step cast) df

/- ------------------------------------------------------------------
convert_variable_or_iterable_to_single_column_df (pipes.py lines 604-649).
The function builds pd.DataFrame(data = dict with one key column_label and
value np.array(iterable)).  numpy treats a Python string as a scalar and
answers with a zero-dimensional array; pandas is_list_like explicitly
excludes zero-dimensional arrays, so the dictionary holds only scalar values
and the DataFrame constructor, given no index, raises its all-scalar
ValueError.  A genuine sequence becomes a one-dimensional array and a
one-column frame.
------------------------------------------------------------------ -/

inductive PyIterable where
  | pystr (s : String)
  | pylist (vs : List String)
  deriving Repr, DecidableEq

inductive NpArr where
  | scalar0d (s : String)
  | arr1d (vs : List String)
  deriving Repr, DecidableEq

/-- Call np.array on the argument. -/
def npArray : PyIterable → NpArr
  | PyIterable.pystr s => NpArr.scalar0d s
  | PyIterable.pylist vs => NpArr.arr1d vs

/-- Single-column pandas dataframe. -/
structure SingleColDf where
  colName : String
  values : List String
  deriving Repr, DecidableEq

/-- Message of the ValueError the DataFrame dictionary constructor raises when
every value is a scalar and no index is given. -/
def allScalarMsg : String := "If using all scalar values, you must pass an index"

/-- Call pd.DataFrame(data = dict with the one key label and the array) with no
index argument. -/
def pdDataFrameOfDict (label : String) (a : NpArr) : Except PyErr SingleColDf :=
  match a with
  | NpArr.arr1d vs => Except.ok ⟨label, vs⟩
  | NpArr.scalar0d _ => Except.error (PyErr.valueError allScalarMsg)

/-- Function convert_variable_or_iterable_to_single_column_df: default the
column label to column1, build the frame, then apply the optional astype
coercion (external pandas behaviour, passed in as a function). -/
def convert_variable_or_iterable_to_single_column_df
    (astype : String → List String → Except PyErr (List String))
    (iterable : PyIterable) (column_label : Option String) (column_type : Option String) :
    Except PyErr SingleColDf :=
  let label := column_label.getD "column1"
  match pdDataFrameOfDict label (npArray iterable) with
  | Except.error e => Except.error e
  | Except.ok df =>
    match column_type with
    | none => Except.ok df
    | some t =>
      match astype t df.values with
      | Except.error e => Except.error e
      | Except.ok vs => Except.ok ⟨label, vs⟩

/- ------------------------------------------------------------------
IngestExcelTables.pre_cleansing (core.py lines 1454-1467).
A dataframe is row-oriented: column names, and rows carrying an index label
and one optional cell per column (none is a missing value).  The four steps
are df.dropna(axis = 1, how = all), df.dropna(axis = 0, how = all),
df.drop_duplicates() and df.reset_index(drop = True).  pandas drops a label
under how = all exactly when its count of non-missing values is zero,
drop_duplicates keeps the first occurrence comparing cell contents only
(missing compares equal to missing) while keeping index labels, and
reset_index replaces the labels by the positions.
------------------------------------------------------------------ -/

structure XlDf (α : Type) where
  cols : List String
  rows : List (Nat × List (Option α))
  deriving Repr, DecidableEq

/-- Rectangularity every pandas dataframe has: each row holds one cell per column. -/
def XlDf.WF {α : Type} (df : XlDf α) : Prop :=
  ∀ r ∈ df.rows, r.2.length = df.cols.length

instance {α : Type} [DecidableEq α] (df : XlDf α) : Decidable df.WF := by
  unfold XlDf.WF; infer_instance

/-- Keep exactly the entries of the second list sitting at a position where the
mask holds true (positions beyond either list are dropped). -/
def maskFilter {β : Type} : List Bool → List β → List β
  | true :: m, x :: xs => x :: maskFilter m xs
  | false :: m, _ :: xs => maskFilter m xs
  | _, _ => []

/-- Count of non-missing values of column j across the rows is positive. -/
def colHasValue {α : Type} (rows : List (Nat × List (Option α))) (j : Nat) : Bool :=
  rows.any (fun r => (r.2.getD j none).isSome)

/-- Column mask of df.dropna(axis = 1, how = all): keep a column exactly when it
has a non-missing value. -/
def keepMask {α : Type} (df : XlDf α) : List Bool :=
  (List.range df.cols.length).map (colHasValue df.rows)

/-- Step df.dropna(axis = 1, how = all). -/
def dropna_cols {α : Type} (df : XlDf α) : XlDf α :=
  ⟨maskFilter (keepMask df) df.cols,
    df.rows.map (fun r => (r.1, maskFilter (keepMask df) r.2))⟩

/-- Count of non-missing values of the row is positive. -/
def rowHasValue {α : Type} (cells : List (Option α)) : Bool :=
  cells.any Option.isSome

/-- Step df.dropna(axis = 0, how = all). -/
def dropna_rows {α : Type} (df : XlDf α) : XlDf α :=
  ⟨df.cols, df.rows.filter (fun r => rowHasValue r.2)⟩

/-- Step df.drop_duplicates(): keep the first row of every group of rows whose
cells coincide, retaining its index label. -/
def drop_duplicates {α : Type} [DecidableEq α] :
    List (Nat × List (Option α)) → List (Nat × List (Option α))
  | [] => []
  | r :: rest => r :: drop_duplicates (rest.filter (fun p => p.2 ≠ r.2))
termination_by l => l.length
decreasing_by
  simp only [List.length_cons]
  exact Nat.lt_succ_of_le (List.length_filter_le _ _)

/-- Step df.drop_duplicates() on the whole frame. -/
def drop_duplicates_df {α : Type} [DecidableEq α] (df : XlDf α) : XlDf α :=
  ⟨df.cols, drop_duplicates df.rows⟩

/-- Step df.reset_index(drop = True): relabel the rows 0, 1, 2, ... -/
def reset_index {α : Type} (df : XlDf α) : XlDf α :=
  ⟨df.cols, (df.rows.map Prod.snd).enum⟩

/-- Method IngestExcelTables.pre_cleansing: the four steps in source order. -/
def pre_cleansing {α : Type} [DecidableEq α] (df : XlDf α) : XlDf α :=
  reset_index (drop_duplicates_df (dropna_rows (dropna_cols df)))

/- ==================================================================
Theorems.  Helper lemmas first, then one theorem per claim (with a witness
wherever the claim theorem carries a hypothesis).
================================================================== -/

/-- Claim C10: every call of sqlserver_pipeline that reaches the dispatch step
fails with NameError on the unbound selector name action, so no dispatcher
branch runs and no connector method is ever invoked through this pipeline. -/
theorem c10_sqlserver_pipeline_name_error (c : Connectors) :
    (sqlserver_pipeline c).2.1 = [] ∧
    (sqlserver_pipeline c).2.2 = Except.error (PyErr.nameError "action") := by
  constructor <;> rfl

/-- Claim C2: create_new_view never reaches its existence check, query
execution or view creation: the call self.table_exists(bqclient, view_id)
passes two positional arguments to a method declaring one, so every call
raises TypeError with the state untouched.  In particular a second call with
the same view_id cannot detect the view and no-op, because the first call
already failed the same way and created nothing. -/
theorem c2_create_new_view_always_type_error (s : BQState) (view_id query : String) :
    GCPBigQueryConnection.create_new_view s view_id query =
      (s, Except.error (PyErr.typeError tableExistsArityMsg)) := by
  rfl

/-- Claim C8: with the bare string abc and default parameters, the conversion
does not return a three-row frame of characters: np.array of a string is a
zero-dimensional scalar array, which pandas rejects in an index-less
dictionary constructor with its all-scalar ValueError, whatever the astype
behaviour is. -/
theorem c8_convert_string_raises_value_error
    (astype : String → List String → Except PyErr (List String)) :
    convert_variable_or_iterable_to_single_column_df astype (PyIterable.pystr "abc")
        none none = Except.error (PyErr.valueError allScalarMsg) := by
  rfl

/-- Claim C1: connector reuse policy of the registry through
manipulate_sqlite_db.  With the persistent flag true and the slot populated,
two sequential calls both use the slot object (identity c) and no constructor
runs (the heap counter is unchanged after both calls); with the flag false,
the two calls construct and use two distinct fresh connector instances. -/
theorem c1_connector_reuse_policy (w : SqliteWorld) (tn : String) (c : Nat) :
    (w.conn.persistent = true → w.conn.sqlite_connector = some c →
      (manipulate_sqlite_db w "fetch_table" tn).2.1 = c ∧
      (manipulate_sqlite_db (manipulate_sqlite_db w "fetch_table" tn).1
          "fetch_table" tn).2.1 = c ∧
      (manipulate_sqlite_db (manipulate_sqlite_db w "fetch_table" tn).1
          "fetch_table" tn).1.conn.next_obj_id = w.conn.next_obj_id) ∧
    (w.conn.persistent = false →
      (manipulate_sqlite_db w "fetch_table" tn).2.1 ≠
        (manipulate_sqlite_db (manipulate_sqlite_db w "fetch_table" tn).1
          "fetch_table" tn).2.1) := by
  constructor
  · intro hp hs
    by_cases h : tn ∈ w.tables <;>
      simp [manipulate_sqlite_db, sqlite_resolve, hp, hs, h]
  · intro hp
    by_cases h : tn ∈ w.tables <;>
      cases hsl : w.conn.sqlite_connector <;>
        simp [manipulate_sqlite_db, sqlite_resolve, hp, hsl, h, Connectors.alloc]

/-- Witness for C1 at concrete registries: with persistence on and connector 5
in the slot both calls use 5 and allocate nothing; with persistence off the
two calls use different connectors. -/
theorem c1_connector_reuse_policy_witness :
    ((⟨⟨true, none, none, some 5, none, 7⟩, ["t"]⟩ : SqliteWorld).conn.persistent = true ∧
      (⟨⟨true, none, none, some 5, none, 7⟩, ["t"]⟩ : SqliteWorld).conn.sqlite_connector =
        some 5 ∧
      (manipulate_sqlite_db ⟨⟨true, none, none, some 5, none, 7⟩, ["t"]⟩
          "fetch_table" "t").2.1 = 5 ∧
      (manipulate_sqlite_db
          (manipulate_sqlite_db ⟨⟨true, none, none, some 5, none, 7⟩, ["t"]⟩
            "fetch_table" "t").1 "fetch_table" "t").2.1 = 5 ∧
      (manipulate_sqlite_db
          (manipulate_sqlite_db ⟨⟨true, none, none, some 5, none, 7⟩, ["t"]⟩
            "fetch_table" "t").1 "fetch_table" "t").1.conn.next_obj_id = 7) ∧
    ((⟨⟨false, none, none, some 5, none, 7⟩, ["t"]⟩ : SqliteWorld).conn.persistent = false ∧
      (manipulate_sqlite_db ⟨⟨false, none, none, some 5, none, 7⟩, ["t"]⟩
          "fetch_table" "t").2.1 ≠
        (manipulate_sqlite_db
          (manipulate_sqlite_db ⟨⟨false, none, none, some 5, none, 7⟩, ["t"]⟩
            "fetch_table" "t").1 "fetch_table" "t").2.1) := by
  have h1 := (c1_connector_reuse_policy ⟨⟨true, none, none, some 5, none, 7⟩, ["t"]⟩
    "t" 5).1 rfl rfl
  have h2 := (c1_connector_reuse_policy ⟨⟨false, none, none, some 5, none, 7⟩, ["t"]⟩
    "t" 5).2 rfl
  exact ⟨⟨rfl, rfl, h1.1, h1.2.1, h1.2.2⟩, ⟨rfl, h2⟩⟩

/-- Counterexample for C6 as stated: calling mount_storage_system with source
google on a fresh registry gets-or-creates the drive connector but the drive
mount operation is never invoked (the mounted flag of the outcome is false),
so the google branch does not mount the drive. -/
theorem c6_mount_storage_google_counterexample :
    mount_storage_system "google" ⟨true, none, none, none, none, 0⟩ =
      Except.ok ⟨⟨true, some 0, none, none, none, 1⟩, false, []⟩ := by
  rfl

/-- Claim C6 amended: with source google the pipeline only gets-or-creates the
drive connector under the registry policy and never invokes mount_drive; with
source aws it constructs the invalid-input error object without raising or
printing it and performs no other action; any other source raises the
invalid-input error naming the two valid choices. -/
theorem c6_mount_storage_dispatch (source : String) (c : Connectors) (g : Nat) :
    (c.google_drive_connector = some g → c.persistent = true →
      mount_storage_system "google" c = Except.ok ⟨c, false, []⟩) ∧
    (c.google_drive_connector = some g → c.persistent = false →
      mount_storage_system "google" c =
        Except.ok ⟨{ c.alloc.1 with google_drive_connector := some c.alloc.2 }, false, []⟩) ∧
    (c.google_drive_connector = none →
      mount_storage_system "google" c =
        Except.ok ⟨{ c.alloc.1 with google_drive_connector := some c.alloc.2 }, false, []⟩) ∧
    (mount_storage_system "aws" c = Except.ok ⟨c, false, [awsS3Msg]⟩) ∧
    (source ≠ "google" → source ≠ "aws" →
      mount_storage_system source c =
        Except.error (PyErr.invalidInputsError selectSourceMsg)) := by
  refine ⟨fun hg hp => ?_, fun hg hp => ?_, fun hg => ?_, ?_, fun h1 h2 => ?_⟩ <;>
    simp [mount_storage_system, *]

/-- Witness for C6 at concrete registries and a concrete unrecognized source. -/
theorem c6_mount_storage_dispatch_witness :
    ((⟨true, some 3, none, none, none, 7⟩ : Connectors).google_drive_connector = some 3 ∧
      (⟨true, some 3, none, none, none, 7⟩ : Connectors).persistent = true ∧
      mount_storage_system "google" ⟨true, some 3, none, none, none, 7⟩ =
        Except.ok ⟨⟨true, some 3, none, none, none, 7⟩, false, []⟩) ∧
    ((⟨false, some 3, none, none, none, 7⟩ : Connectors).persistent = false ∧
      mount_storage_system "google" ⟨false, some 3, none, none, none, 7⟩ =
        Except.ok ⟨⟨false, some 7, none, none, none, 8⟩, false, []⟩) ∧
    (mount_storage_system "aws" ⟨true, some 3, none, none, none, 7⟩ =
      Except.ok ⟨⟨true, some 3, none, none, none, 7⟩, false, [awsS3Msg]⟩) ∧
    (("s3" : String) ≠ "google" ∧ ("s3" : String) ≠ "aws" ∧
      mount_storage_system "s3" ⟨true, some 3, none, none, none, 7⟩ =
        Except.error (PyErr.invalidInputsError selectSourceMsg)) := by
  have ht := c6_mount_storage_dispatch "s3" ⟨true, some 3, none, none, none, 7⟩ 3
  have hf := c6_mount_storage_dispatch "s3" ⟨false, some 3, none, none, none, 7⟩ 3
  exact ⟨⟨rfl, rfl, ht.1 rfl rfl⟩, ⟨rfl, hf.2.1 rfl rfl⟩, ht.2.2.2.1,
    ⟨by decide, by decide, ht.2.2.2.2 (by decide) (by decide)⟩⟩

/-- Counterexample for C4 as stated: on a concrete folder tree with no match
for the target name, download_file returns normally after its own handler
printed the caught error; the invalid-input error is not raised to the
caller. -/
theorem c4_download_file_not_found_counterexample :
    download_file [SPItem.folder "f1" [SPItem.file "other.txt" "id1"]] "data.xlsx" =
      Except.ok (DownloadResult.errorPrinted (PyErr.invalidInputsError "File not found.")) := by
  simp [download_file, download_file_try_body, find_file]

/-- Claim C4 amended: on a tree without a match, download_file raises the
invalid-input error File not found inside its try block, but its own
except-Exception handler catches it, prints it and returns None, so no
exception reaches the caller and nothing is retrieved; on a tree with a
match, the file is retrieved under its original name and the success message
printed. -/
theorem c4_download_file_behavior (tree : List SPItem) (target : String) (fid : String) :
    (find_file target tree = none →
      download_file tree target =
        Except.ok (DownloadResult.errorPrinted (PyErr.invalidInputsError "File not found."))) ∧
    (find_file target tree = some fid →
      download_file tree target = Except.ok (DownloadResult.downloadedOk target)) := by
  constructor <;> intro h <;> simp [download_file, download_file_try_body, h]

/-- Witness for C4 on a concrete miss tree and a concrete hit tree. -/
theorem c4_download_file_behavior_witness :
    (find_file "data.xlsx" [SPItem.folder "f1" [SPItem.file "other.txt" "id1"]] = none ∧
      download_file [SPItem.folder "f1" [SPItem.file "other.txt" "id1"]] "data.xlsx" =
        Except.ok (DownloadResult.errorPrinted
          (PyErr.invalidInputsError "File not found."))) ∧
    (find_file "data.xlsx" [SPItem.folder "f1" [SPItem.file "data.xlsx" "id2"]] =
        some "id2" ∧
      download_file [SPItem.folder "f1" [SPItem.file "data.xlsx" "id2"]] "data.xlsx" =
        Except.ok (DownloadResult.downloadedOk "data.xlsx")) := by
  have hmiss : find_file "data.xlsx" [SPItem.folder "f1" [SPItem.file "other.txt" "id1"]] =
      none := by simp [find_file]
  have hhit : find_file "data.xlsx" [SPItem.folder "f1" [SPItem.file "data.xlsx" "id2"]] =
      some "id2" := by simp [find_file]
  exact ⟨⟨hmiss, (c4_download_file_behavior
      [SPItem.folder "f1" [SPItem.file "other.txt" "id1"]] "data.xlsx" "id1").1 hmiss⟩,
    ⟨hhit, (c4_download_file_behavior
      [SPItem.folder "f1" [SPItem.file "data.xlsx" "id2"]] "data.xlsx" "id2").2 hhit⟩⟩

/-- Claim C5: update_or_create_table never performs the write and never returns:
its write statement references the unbound names df and engine, so the bare
except always converts the resulting NameError into InvalidInputsError.  When
the engine is already present the raised message is the update failure one
(when the engine is absent and the stored path is empty, engine creation
itself raises first, still the invalid-input kind). -/
theorem c5_update_or_create_table_always_raises (c : SQLiteConnection) (tn : String) :
    (∀ x, c.update_or_create_table tn ≠ Except.ok x) ∧
    (c.engine.isSome = true →
      c.update_or_create_table tn =
        Except.error (PyErr.invalidInputsError sqliteUpdateMsg)) := by
  have hdf : ¬ ((("df" ∈ update_or_create_table_local_names) ∨
      ("df" ∈ core_module_globals)) ∨ ("df" ∈ python_builtin_names)) := by decide
  constructor
  · intro x
    cases he : c.engine with
    | none =>
      simp only [SQLiteConnection.update_or_create_table,
        SQLiteConnection.create_engine, he]
      split <;> simp [hdf]
    | some e =>
      simp [SQLiteConnection.update_or_create_table, he, hdf]
  · intro hs
    cases he : c.engine with
    | none => rw [he] at hs; simp at hs
    | some e => simp [SQLiteConnection.update_or_create_table, he, hdf]

/-- Witness for C5 on a connection holding an engine. -/
theorem c5_update_or_create_table_always_raises_witness :
    (⟨"my_db.db", some "sqlite:///my_db.db"⟩ : SQLiteConnection).engine.isSome = true ∧
    SQLiteConnection.update_or_create_table ⟨"my_db.db", some "sqlite:///my_db.db"⟩
        "main_table" = Except.error (PyErr.invalidInputsError sqliteUpdateMsg) := by
  exact ⟨rfl, (c5_update_or_create_table_always_raises
    ⟨"my_db.db", some "sqlite:///my_db.db"⟩ "main_table").2 rfl⟩

/-- Counterexample for C3 as stated: the delete operation called with an empty
values iterable on a table whose streaming buffer is non-empty fails with
IndexError from values_to_delete.pop(0) before the table is even inspected,
not with the operational-conflict RuntimeError the claim names for every
delete or update call. -/
theorem c3_delete_empty_values_counterexample :
    GCPBigQueryConnection.delete_specific_values_from_column_on_table
        ⟨"p", "d", [("t", ⟨true⟩)], [], []⟩ "t" "c" (ValuesArg.listArg []) =
      (⟨"p", "d", [("t", ⟨true⟩)], [], []⟩,
        Except.error (PyErr.indexError "pop from empty list")) ∧
    GCPBigQueryConnection.delete_specific_values_from_column_on_table
        ⟨"p", "d", [("t", ⟨true⟩)], [], []⟩ "t" "c" (ValuesArg.listArg []) ≠
      (⟨"p", "d", [("t", ⟨true⟩)], [], []⟩,
        Except.error (PyErr.runtimeError streamingBufferMsg)) := by
  constructor
  · rfl
  · intro h
    have h2 := congrArg (fun p => p.2) h
    simp only [] at h2
    have h3 : Except.error (ε := PyErr) (PyErr.indexError "pop from empty list") =
        Except.error (PyErr.runtimeError streamingBufferMsg) := h2
    simp at h3

/-- Claim C3 amended: every warehouse delete or update operation against a
table reporting a non-empty streaming buffer raises the RuntimeError of the
guard (not the invalid-input kind) and never submits the mutating query (the
state, its query log included, is unchanged) — for the delete operation
provided its values argument normalizes to at least one element; an empty
iterable instead fails earlier with IndexError from pop(0). -/
theorem c3_streaming_buffer_guard (s : BQState)
    (table column string_column comparative_column : String) (meta : BQTable)
    (old_value updated_value value_to_search : SqlVal) (values_to_delete : ValuesArg)
    (hmeta : s.tables.lookup table = some meta) (hbuf : meta.hasStreamingBuffer = true) :
    (values_to_delete.normalize ≠ [] →
      GCPBigQueryConnection.delete_specific_values_from_column_on_table s table column
          values_to_delete =
        (s, Except.error (PyErr.runtimeError streamingBufferMsg))) ∧
    GCPBigQueryConnection.update_specific_value_from_column_on_table s table column
        old_value updated_value =
      (s, Except.error (PyErr.runtimeError streamingBufferMsg)) ∧
    GCPBigQueryConnection.update_entire_column_from_table s table column updated_value =
      (s, Except.error (PyErr.runtimeError streamingBufferMsg)) ∧
    GCPBigQueryConnection.update_value_when_finding_str_or_substring_on_another_column
        s table column updated_value string_column "sub" =
      (s, Except.error (PyErr.runtimeError streamingBufferMsg)) ∧
    GCPBigQueryConnection.update_value_when_finding_numeric_value_on_another_column
        s table column updated_value comparative_column value_to_search =
      (s, Except.error (PyErr.runtimeError streamingBufferMsg)) := by
  have hb : ∀ q : String, bqMutate s table q =
      (s, Except.error (PyErr.runtimeError streamingBufferMsg)) := by
    intro q
    unfold bqMutate
    rw [hmeta]
    simp [hbuf]
  refine ⟨fun hv => ?_, ?_, ?_, ?_, ?_⟩
  · unfold GCPBigQueryConnection.delete_specific_values_from_column_on_table
    cases hnv : values_to_delete.normalize with
    | nil => exact absurd hnv hv
    | cons v rest => exact hb _
  · unfold GCPBigQueryConnection.update_specific_value_from_column_on_table
    exact hb _
  · unfold GCPBigQueryConnection.update_entire_column_from_table
    exact hb _
  · unfold GCPBigQueryConnection.update_value_when_finding_str_or_substring_on_another_column
    exact hb _
  · unfold GCPBigQueryConnection.update_value_when_finding_numeric_value_on_another_column
    exact hb _

/-- Witness for C3 on a concrete warehouse state with a buffered table and
concrete values. -/
theorem c3_streaming_buffer_guard_witness :
    ((⟨"p", "d", [("t", ⟨true⟩)], [], []⟩ : BQState).tables.lookup "t" =
      some (⟨true⟩ : BQTable)) ∧
    (⟨true⟩ : BQTable).hasStreamingBuffer = true ∧
    (ValuesArg.scalar (SqlVal.strVal "x")).normalize ≠ [] ∧
    GCPBigQueryConnection.delete_specific_values_from_column_on_table
        ⟨"p", "d", [("t", ⟨true⟩)], [], []⟩ "t" "c"
        (ValuesArg.scalar (SqlVal.strVal "x")) =
      (⟨"p", "d", [("t", ⟨true⟩)], [], []⟩,
        Except.error (PyErr.runtimeError streamingBufferMsg)) ∧
    GCPBigQueryConnection.update_specific_value_from_column_on_table
        ⟨"p", "d", [("t", ⟨true⟩)], [], []⟩ "t" "c" (SqlVal.numVal 1) (SqlVal.numVal 2) =
      (⟨"p", "d", [("t", ⟨true⟩)], [], []⟩,
        Except.error (PyErr.runtimeError streamingBufferMsg)) ∧
    GCPBigQueryConnection.update_entire_column_from_table
        ⟨"p", "d", [("t", ⟨true⟩)], [], []⟩ "t" "c" (SqlVal.numVal 2) =
      (⟨"p", "d", [("t", ⟨true⟩)], [], []⟩,
        Except.error (PyErr.runtimeError streamingBufferMsg)) ∧
    GCPBigQueryConnection.update_value_when_finding_str_or_substring_on_another_column
        ⟨"p", "d", [("t", ⟨true⟩)], [], []⟩ "t" "c" (SqlVal.numVal 2) "sc" "sub" =
      (⟨"p", "d", [("t", ⟨true⟩)], [], []⟩,
        Except.error (PyErr.runtimeError streamingBufferMsg)) ∧
    GCPBigQueryConnection.update_value_when_finding_numeric_value_on_another_column
        ⟨"p", "d", [("t", ⟨true⟩)], [], []⟩ "t" "c" (SqlVal.numVal 2) "cc"
        (SqlVal.numVal 3) =
      (⟨"p", "d", [("t", ⟨true⟩)], [], []⟩,
        Except.error (PyErr.runtimeError streamingBufferMsg)) := by
  have h := c3_streaming_buffer_guard ⟨"p", "d", [("t", ⟨true⟩)], [], []⟩ "t" "c" "sc" "cc"
    ⟨true⟩ (SqlVal.numVal 1) (SqlVal.numVal 2) (SqlVal.numVal 3)
    (ValuesArg.scalar (SqlVal.strVal "x")) rfl rfl
  exact ⟨rfl, rfl, by decide, h.1 (by decide), h.2.1, h.2.2.1, h.2.2.2.1, h.2.2.2.2⟩

/-- Writing a column leaves the keys of the frame unchanged and replaces the
payload found under the written name. -/
theorem lookupCol_setCol {α : Type} (df : List (String × α)) (n m : String) (v : α) :
    lookupCol (setCol df n v) m =
      (lookupCol df m).map (fun x => if m = n then v else x) := by
  induction df with
  | nil => rfl
  | cons p t ih =>
    obtain ⟨k, x⟩ := p
    show lookupCol ((if k = n then (n, v) else (k, x)) :: setCol t n v) m = _
    by_cases hkn : k = n
    · rw [if_pos hkn]
      subst hkn
      by_cases hkm : m = k
      · subst hkm
        simp [lookupCol, List.lookup]
      · simp only [lookupCol, List.lookup, beq_eq_false_iff_ne.mpr hkm]
        simpa [lookupCol, setCol] using ih
    · rw [if_neg hkn]
      by_cases hkm : m = k
      · subst hkm
        simp [lookupCol, List.lookup, hkn]
      · simp only [lookupCol, List.lookup, beq_eq_false_iff_ne.mpr hkm]
        simpa [lookupCol, setCol] using ih

/-- Claim C7: on a schema list holding one entry for a nonexistent column and
one entry for an existing column with a valid target type, set_schema_pd_df
raises nothing (it is a total function here because every fallible step of
the source sits under a bare except), recasts the valid column, ignores the
invalid entry, and leaves the input frame unchanged (the fold starts from the
deep copy; the original value is never written).  Both entry orders are
covered. -/
theorem c7_set_schema_partial_failure {α : Type} (cast : String → α → Option α)
    (df : List (String × α)) (badName goodName ty : String) (tyBad : Option String)
    (col col2 : α)
    (hbad : lookupCol df badName = none)
    (hgood : lookupCol df goodName = some col)
    (hcast : cast ty col = some col2) :
    set_schema_pd_df cast df
        [⟨some badName, tyBad⟩, ⟨some goodName, some ty⟩] = setCol df goodName col2 ∧
    set_schema_pd_df cast df
        [⟨some goodName, some ty⟩, ⟨some badName, tyBad⟩] = setCol df goodName col2 ∧
    lookupCol (setCol df goodName col2) goodName = some col2 := by
  refine ⟨?_, ?_, by rw [lookupCol_setCol, hgood]; simp⟩
  · show set_schema_step cast (set_schema_step cast df ⟨some badName, tyBad⟩)
      ⟨some goodName, some ty⟩ = setCol df goodName col2
    have h1 : set_schema_step cast df ⟨some badName, tyBad⟩ = df := by
      unfold set_schema_step
      cases tyBad <;> simp [hbad]
    rw [h1]
    unfold set_schema_step
    simp [hgood, hcast]
  · show set_schema_step cast (set_schema_step cast df ⟨some goodName, some ty⟩)
      ⟨some badName, tyBad⟩ = setCol df goodName col2
    have h1 : set_schema_step cast df ⟨some goodName, some ty⟩ = setCol df goodName col2 := by
      unfold set_schema_step
      simp [hgood, hcast]
    rw [h1]
    unfold set_schema_step
    cases tyBad <;> simp [lookupCol_setCol, hbad]

/-- Witness for C7 on a concrete frame, a concrete failing entry and a
concrete coercion function. -/
theorem c7_set_schema_partial_failure_witness :
    lookupCol [("a", 10), ("b", 20)] "zzz" = (none : Option Nat) ∧
    lookupCol [("a", 10), ("b", 20)] "a" = some 10 ∧
    (fun (t : String) (v : Nat) => if t = "float64" then some (v + 1) else none)
      "float64" 10 = some 11 ∧
    set_schema_pd_df
        (fun (t : String) (v : Nat) => if t = "float64" then some (v + 1) else none)
        [("a", 10), ("b", 20)]
        [⟨some "zzz", some "str"⟩, ⟨some "a", some "float64"⟩] =
      setCol [("a", 10), ("b", 20)] "a" 11 ∧
    set_schema_pd_df
        (fun (t : String) (v : Nat) => if t = "float64" then some (v + 1) else none)
        [("a", 10), ("b", 20)]
        [⟨some "a", some "float64"⟩, ⟨some "zzz", some "str"⟩] =
      setCol [("a", 10), ("b", 20)] "a" 11 ∧
    lookupCol (setCol [("a", 10), ("b", 20)] "a" 11) "a" = some 11 := by
  have h := c7_set_schema_partial_failure
    (fun (t : String) (v : Nat) => if t = "float64" then some (v + 1) else none)
    [("a", 10), ("b", 20)] "zzz" "a" "float64" (some "str") 10 11
    (by decide) (by decide) (by decide)
  exact ⟨by decide, by decide, by decide, h.1, h.2.1, h.2.2⟩

/-- maskFilter of an empty list is empty whatever the mask is. -/
theorem maskFilter_nil {β : Type} (m : List Bool) : maskFilter m ([] : List β) = [] := by
  cases m with
  | nil => rfl
  | cons b t => cases b <;> rfl

/-- maskFilter keeps the same positions of any two aligned lists, so the
filtered lengths agree. -/
theorem maskFilter_length_congr {β γ : Type} :
    ∀ (m : List Bool) (xs : List β) (ys : List γ), xs.length = ys.length →
      (maskFilter m xs).length = (maskFilter m ys).length := by
  intro m
  induction m with
  | nil => intro xs ys _; rfl
  | cons b t ih =>
    intro xs ys h
    cases xs with
    | nil =>
      cases ys with
      | nil => simp [maskFilter_nil]
      | cons y ys => simp at h
    | cons x xs =>
      cases ys with
      | nil => simp at h
      | cons y ys => cases b <;> simpa [maskFilter] using ih xs ys (by simpa using h)

/-- An all-true mask of the right length keeps everything. -/
theorem maskFilter_replicate_true {β : Type} :
    ∀ (n : Nat) (xs : List β), xs.length = n →
      maskFilter (List.replicate n true) xs = xs := by
  intro n
  induction n with
  | zero =>
    intro xs h
    rw [List.length_eq_zero.mp h]
    rfl
  | succ k ih =>
    intro xs h
    cases xs with
    | nil => simp at h
    | cons x t => simpa [List.replicate_succ, maskFilter] using ih t (by simpa using h)

/-- Head cell of a row filtered under a mask starting true. -/
theorem maskFilter_getD_true_zero {α : Type} (m : List Bool) (r : List (Option α)) :
    (maskFilter (true :: m) r).getD 0 none = r.getD 0 none := by
  cases r <;> rfl

/-- Later cells of a row filtered under a mask starting true. -/
theorem maskFilter_getD_true_succ {α : Type} (m : List Bool) (r : List (Option α))
    (j : Nat) :
    (maskFilter (true :: m) r).getD (j + 1) none = (maskFilter m r.tail).getD j none := by
  cases r with
  | nil => simp [maskFilter_nil]
  | cons x t => rfl

/-- Cells of a row filtered under a mask starting false. -/
theorem maskFilter_getD_false {α : Type} (m : List Bool) (r : List (Option α)) (j : Nat) :
    (maskFilter (false :: m) r).getD j none = (maskFilter m r.tail).getD j none := by
  cases r with
  | nil => simp [maskFilter_nil]
  | cons x t => rfl

/-- Cells of the tail are the later cells of the row. -/
theorem tail_getD {α : Type} (r : List (Option α)) (j : Nat) :
    r.tail.getD j none = r.getD (j + 1) none := by
  cases r <;> rfl

/-- Transfer of column witnesses through maskFilter: when every kept position
of the mask has a witness row with a value there, every column of the
filtered frame has a witness row with a value there. -/
theorem maskFilter_exists_getD {α : Type} :
    ∀ (m : List Bool) (cs : List String) (rows : List (List (Option α))),
      m.length = cs.length →
      (∀ p, p < m.length → m.getD p false = true →
        ∃ r ∈ rows, (r.getD p none).isSome = true) →
      ∀ j, j < (maskFilter m cs).length →
        ∃ r ∈ rows, ((maskFilter m r).getD j none).isSome = true := by
  intro m
  induction m with
  | nil =>
    intro cs rows _ _ j hj
    simp [maskFilter] at hj
  | cons b t ih =>
    intro cs rows hlen hm j hj
    cases cs with
    | nil => simp at hlen
    | cons c cs =>
      have hm' : ∀ p, p < t.length → t.getD p false = true →
          ∃ r ∈ rows.map List.tail, (r.getD p none).isSome = true := by
        intro p hp ht
        obtain ⟨r, hr, hsome⟩ := hm (p + 1) (by simpa using Nat.succ_lt_succ hp)
          (by simpa using ht)
        exact ⟨r.tail, List.mem_map_of_mem _ hr, by rw [tail_getD]; exact hsome⟩
      cases b with
      | true =>
        cases j with
        | zero =>
          obtain ⟨r, hr, hsome⟩ := hm 0 (by simp) (by simp)
          exact ⟨r, hr, by rw [maskFilter_getD_true_zero]; exact hsome⟩
        | succ j =>
          have hj' : j < (maskFilter t cs).length := by
            simpa [maskFilter] using hj
          obtain ⟨r2, hr2, hsome⟩ := ih cs (rows.map List.tail)
            (by simpa using hlen) hm' j hj'
          obtain ⟨r, hr, rfl⟩ := List.mem_map.mp hr2
          exact ⟨r, hr, by rw [maskFilter_getD_true_succ]; exact hsome⟩
      | false =>
        have hj' : j < (maskFilter t cs).length := by
          simpa [maskFilter] using hj
        obtain ⟨r2, hr2, hsome⟩ := ih cs (rows.map List.tail)
          (by simpa using hlen) hm' j hj'
        obtain ⟨r, hr, rfl⟩ := List.mem_map.mp hr2
        exact ⟨r, hr, by rw [maskFilter_getD_false]; exact hsome⟩

/-- The column mask reads back as the column-has-value test. -/
theorem keepMask_getD {α : Type} (df : XlDf α) (p : Nat) (hp : p < df.cols.length) :
    (keepMask df).getD p false = colHasValue df.rows p := by
  unfold keepMask
  rw [List.getD_eq_getElem?_getD, List.getElem?_map, List.getElem?_range hp]
  rfl

/-- The column-has-value test as an existential. -/
theorem colHasValue_iff {α : Type} (rows : List (Nat × List (Option α))) (j : Nat) :
    colHasValue rows j = true ↔ ∃ r ∈ rows, ((r.2).getD j none).isSome = true := by
  simp [colHasValue]

/-- Every column the column drop keeps has a value in the surviving frame. -/
theorem dropna_cols_inv {α : Type} (df : XlDf α) :
    ∀ j, j < (dropna_cols df).cols.length →
      colHasValue (dropna_cols df).rows j = true := by
  intro j hj
  rw [colHasValue_iff]
  have hlen : (keepMask df).length = df.cols.length := by simp [keepMask]
  have hm : ∀ p, p < (keepMask df).length → (keepMask df).getD p false = true →
      ∃ rr ∈ df.rows.map Prod.snd, (rr.getD p none).isSome = true := by
    intro p hp ht
    rw [keepMask_getD df p (hlen ▸ hp)] at ht
    rw [colHasValue_iff] at ht
    obtain ⟨r, hr, hsome⟩ := ht
    exact ⟨r.2, List.mem_map_of_mem _ hr, hsome⟩
  obtain ⟨rr, hrr, hsome⟩ :=
    maskFilter_exists_getD (keepMask df) df.cols (df.rows.map Prod.snd) hlen hm j hj
  obtain ⟨r, hr, rfl⟩ := List.mem_map.mp hrr
  exact ⟨(r.1, maskFilter (keepMask df) r.2),
    List.mem_map_of_mem (fun r => (r.1, maskFilter (keepMask df) r.2)) hr, hsome⟩

/-- The column drop does nothing on a rectangular frame all of whose columns
have a value. -/
theorem dropna_cols_eq_self {α : Type} (df : XlDf α) (hWF : df.WF)
    (hinv : ∀ j, j < df.cols.length → colHasValue df.rows j = true) :
    dropna_cols df = df := by
  have hmask : keepMask df = List.replicate df.cols.length true := by
    rw [List.eq_replicate_iff]
    refine ⟨by simp [keepMask], ?_⟩
    intro b hb
    simp only [keepMask, List.mem_map, List.mem_range] at hb
    obtain ⟨j, hj, rfl⟩ := hb
    exact hinv j hj
  unfold dropna_cols
  rw [hmask]
  cases df with
  | mk cols rows =>
    simp only
    congr 1
    · exact maskFilter_replicate_true cols.length cols rfl
    · have hcongr : rows.map
          (fun r => (r.1, maskFilter (List.replicate cols.length true) r.2)) =
          rows.map id :=
        List.map_congr_left (fun r hr => by
          rw [maskFilter_replicate_true cols.length r.2 (hWF r hr)]
          rfl)
      rw [hcongr, List.map_id]

/-- The row drop does nothing when every row has a value. -/
theorem dropna_rows_eq_self {α : Type} (df : XlDf α)
    (h : ∀ r ∈ df.rows, rowHasValue r.2 = true) : dropna_rows df = df := by
  cases df with
  | mk cols rows =>
    unfold dropna_rows
    simp only [XlDf.mk.injEq, true_and]
    exact List.filter_eq_self.mpr h

/-- A row with a value in some column has a value. -/
theorem rowHasValue_of_getD {α : Type} :
    ∀ (cells : List (Option α)) (j : Nat), (cells.getD j none).isSome = true →
      rowHasValue cells = true := by
  intro cells
  induction cells with
  | nil => intro j h; simp at h
  | cons c t ih =>
    intro j h
    cases j with
    | zero => simp [rowHasValue]; left; simpa using h
    | succ j =>
      have h2 := ih j (by simpa using h)
      simp [rowHasValue] at h2 ⊢
      right; exact h2

/-- Unfolding equation of drop_duplicates on a cons. -/
theorem drop_duplicates_cons {α : Type} [DecidableEq α] (a : Nat × List (Option α))
    (rest : List (Nat × List (Option α))) :
    drop_duplicates (a :: rest) =
      a :: drop_duplicates (rest.filter fun p => p.2 ≠ a.2) := by
  rw [drop_duplicates]

/-- Every row the duplicate drop keeps was a row of the input. -/
theorem drop_duplicates_subset {α : Type} [DecidableEq α] :
    ∀ (l : List (Nat × List (Option α))) (r : Nat × List (Option α)),
      r ∈ drop_duplicates l → r ∈ l := by
  intro l
  induction l using drop_duplicates.induct with
  | case1 => intro r h; simp [drop_duplicates] at h
  | case2 a rest ih =>
    intro r h
    rw [drop_duplicates_cons] at h
    rcases List.mem_cons.mp h with h1 | h2
    · exact h1 ▸ List.mem_cons_self _ _
    · exact List.mem_cons_of_mem _ (List.mem_of_mem_filter (ih _ h2))

/-- The duplicate drop leaves no two rows with the same cells. -/
theorem drop_duplicates_pairwise {α : Type} [DecidableEq α] :
    ∀ l : List (Nat × List (Option α)),
      (drop_duplicates l).Pairwise (fun a b => a.2 ≠ b.2) := by
  intro l
  induction l using drop_duplicates.induct with
  | case1 => simp [drop_duplicates]
  | case2 a rest ih =>
    rw [drop_duplicates_cons]
    refine List.pairwise_cons.mpr ⟨?_, ih⟩
    intro b hb
    have hbf := drop_duplicates_subset _ _ hb
    have := List.of_mem_filter hbf
    simp only [decide_eq_true_eq] at this
    exact fun he => this he.symm

/-- The duplicate drop does nothing on a list without duplicate cells. -/
theorem drop_duplicates_eq_self {α : Type} [DecidableEq α] :
    ∀ l : List (Nat × List (Option α)),
      l.Pairwise (fun a b => a.2 ≠ b.2) → drop_duplicates l = l := by
  intro l
  induction l using drop_duplicates.induct with
  | case1 => intro _; rw [drop_duplicates]
  | case2 a rest ih =>
    intro hp
    obtain ⟨hhead, htail⟩ := List.pairwise_cons.mp hp
    have hfilter : rest.filter (fun p => p.2 ≠ a.2) = rest := by
      refine List.filter_eq_self.mpr ?_
      intro b hb
      simpa using fun he => hhead b hb he.symm
    rw [drop_duplicates_cons, hfilter]
    rw [hfilter] at ih
    rw [ih htail]

/-- Every row of the input has a kept representative with the same cells. -/
theorem drop_duplicates_exists_snd {α : Type} [DecidableEq α] :
    ∀ (l : List (Nat × List (Option α))) (r : Nat × List (Option α)), r ∈ l →
      ∃ r2 ∈ drop_duplicates l, r2.2 = r.2 := by
  intro l
  induction l using drop_duplicates.induct with
  | case1 => intro r h; simp at h
  | case2 a rest ih =>
    intro r h
    rw [drop_duplicates_cons]
    rcases List.mem_cons.mp h with h1 | h2
    · exact ⟨a, List.mem_cons_self _ _, by rw [h1]⟩
    · by_cases hsnd : r.2 = a.2
      · exact ⟨a, List.mem_cons_self _ _, hsnd.symm⟩
      · have hf : r ∈ rest.filter (fun p => p.2 ≠ a.2) :=
          List.mem_filter.mpr ⟨h2, by simpa using hsnd⟩
        obtain ⟨r2, hr2, he⟩ := ih r hf
        exact ⟨r2, List.mem_cons_of_mem _ hr2, he⟩

/-- Cells of an enumerated row are an element of the enumerated list. -/
theorem enum_snd_mem {β : Type} (ys : List β) (q : Nat × β) (h : q ∈ ys.enum) :
    q.2 ∈ ys := by
  have h2 := List.mem_map_of_mem Prod.snd h
  rwa [List.enum_map_snd] at h2

/-- Every element of a list appears as the cells of some enumerated row. -/
theorem enum_exists_of_mem {β : Type} (ys : List β) (y : β) (h : y ∈ ys) :
    ∃ q ∈ ys.enum, q.2 = y := by
  have h2 : y ∈ ys.enum.map Prod.snd := by rwa [List.enum_map_snd]
  exact List.mem_map.mp h2

/-- Distinct elements stay distinct as cells of the enumeration. -/
theorem enum_pairwise_snd {β : Type} (ys : List β) (h : ys.Pairwise Ne) :
    ys.enum.Pairwise (fun a b => a.2 ≠ b.2) := by
  have h2 : (ys.enum.map Prod.snd).Pairwise Ne := by rwa [List.enum_map_snd]
  exact List.pairwise_map.mp h2

/-- Relabelling the rows twice is relabelling them once. -/
theorem reset_index_idem {α : Type} (df : XlDf α) :
    reset_index (reset_index df) = reset_index df := by
  unfold reset_index
  simp [List.enum_map_snd]

/-- Claim C9: pre-cleansing is idempotent on every rectangular dataframe —
a second application drops no column (every kept column kept a witness row
with a value), drops no row (every surviving row has a value), removes no
duplicate (the kept rows have pairwise distinct cells, missing cells
comparing equal as pandas does), and the index is already the contiguous
range. -/
theorem c9_pre_cleansing_idempotent {α : Type} [DecidableEq α] (df : XlDf α)
    (hWF : df.WF) : pre_cleansing (pre_cleansing df) = pre_cleansing df := by
  have hCWF : (dropna_cols df).WF := by
    intro r hr
    obtain ⟨r0, hr0, rfl⟩ := List.mem_map.mp hr
    exact maskFilter_length_congr (keepMask df) r0.2 df.cols (hWF r0 hr0)
  have hDrows : (pre_cleansing df).rows =
      ((drop_duplicates (dropna_rows (dropna_cols df)).rows).map Prod.snd).enum := rfl
  have hDcols : (pre_cleansing df).cols = (dropna_cols df).cols := rfl
  -- rows of the final frame carry the cells of a surviving filtered row
  have hDcells : ∀ q ∈ (pre_cleansing df).rows,
      ∃ r ∈ (dropna_rows (dropna_cols df)).rows, q.2 = r.2 := by
    intro q hq
    rw [hDrows] at hq
    have h2 := enum_snd_mem _ _ hq
    obtain ⟨r2, hr2, he⟩ := List.mem_map.mp h2
    exact ⟨r2, drop_duplicates_subset _ _ hr2, he.symm⟩
  -- the final frame is rectangular
  have hDWF : (pre_cleansing df).WF := by
    intro q hq
    obtain ⟨r, hrR, he⟩ := hDcells q hq
    rw [he, hDcols]
    exact hCWF r (List.mem_of_mem_filter hrR)
  -- every column of the final frame still has a witness row with a value
  have hDinv : ∀ j, j < (pre_cleansing df).cols.length →
      colHasValue (pre_cleansing df).rows j = true := by
    intro j hj
    have hCinv := dropna_cols_inv df j (hDcols ▸ hj)
    rw [colHasValue_iff] at hCinv
    obtain ⟨r, hrC, hsome⟩ := hCinv
    have hrR : r ∈ (dropna_rows (dropna_cols df)).rows :=
      List.mem_filter.mpr ⟨hrC, rowHasValue_of_getD r.2 j hsome⟩
    obtain ⟨r2, hr2U, h2⟩ := drop_duplicates_exists_snd _ r hrR
    obtain ⟨q, hq, hq2⟩ := enum_exists_of_mem _ r2.2 (List.mem_map_of_mem Prod.snd hr2U)
    rw [colHasValue_iff]
    refine ⟨q, by rw [hDrows]; exact hq, ?_⟩
    rw [hq2, h2]
    exact hsome
  -- the four steps of the second application are each the identity
  have e1 : dropna_cols (pre_cleansing df) = pre_cleansing df :=
    dropna_cols_eq_self _ hDWF hDinv
  have e2 : dropna_rows (pre_cleansing df) = pre_cleansing df := by
    refine dropna_rows_eq_self _ ?_
    intro q hq
    obtain ⟨r, hrR, he⟩ := hDcells q hq
    rw [he]
    exact (List.mem_filter.mp hrR).2
  have e3 : drop_duplicates (pre_cleansing df).rows = (pre_cleansing df).rows := by
    refine drop_duplicates_eq_self _ ?_
    rw [hDrows]
    refine enum_pairwise_snd _ ?_
    refine List.pairwise_map.mpr ?_
    exact drop_duplicates_pairwise (dropna_rows (dropna_cols df)).rows
  have e4 : reset_index (pre_cleansing df) = pre_cleansing df :=
    reset_index_idem (drop_duplicates_df (dropna_rows (dropna_cols df)))
  show reset_index (drop_duplicates_df (dropna_rows (dropna_cols (pre_cleansing df)))) =
    pre_cleansing df
  rw [e1, e2]
  have e3' : drop_duplicates_df (pre_cleansing df) = pre_cleansing df := by
    unfold drop_duplicates_df
    rw [e3]
  rw [e3', e4]

/-- Witness for C9 on a concrete frame with an empty column, an empty row, a
duplicate row and a sparse index. -/
theorem c9_pre_cleansing_idempotent_witness :
    (XlDf.mk ["a", "b", "c"]
        [(0, [some 1, none, none]), (3, [none, none, none]),
         (7, [some 1, none, none]), (9, [some 2, some 5, none])] : XlDf Nat).WF ∧
    pre_cleansing (pre_cleansing
        (XlDf.mk ["a", "b", "c"]
          [(0, [some 1, none, none]), (3, [none, none, none]),
           (7, [some 1, none, none]), (9, [some 2, some 5, none])] : XlDf Nat)) =
      pre_cleansing
        (XlDf.mk ["a", "b", "c"]
          [(0, [some 1, none, none]), (3, [none, none, none]),
           (7, [some 1, none, none]), (9, [some 2, some 5, none])] : XlDf Nat) := by
  refine ⟨by decide, ?_⟩
  exact c9_pre_cleansing_idempotent
    (XlDf.mk ["a", "b", "c"]
      [(0, [some 1, none, none]), (3, [none, none, none]),
       (7, [some 1, none, none]), (9, [some 2, some 5, none])]) (by decide)

end Colabutils
